import Mathlib

/-!
Shallow embedding of the Daladan escrow settlement core
(`backend/routers/escrow.py`, `backend/audit.py`, `backend/models.py`,
`backend/schemas/escrow.py`).

Modelling conventions:
* Python `Decimal` values (amounts, balances, shares) are embedded as `ℚ`.
  All `Decimal` operations performed by the code (`*`, `+` on values with at
  most 14 significant digits) are exact in Python (default context precision
  28), so `ℚ` arithmetic is value-faithful.
* `float(x)` applied to a `Decimal` is embedded as the marker structure
  `PyFloat` carrying the exact decimal payload: the conversion is a function,
  so two equal decimals yield the same binary float. Response fields typed
  `float` in the pydantic schemas carry `PyFloat`.
* UUIDs are embedded as `Nat` (with `str(uuid)` as `toString`), `datetime`
  values as `Nat` instants (with `isoformat` as an injective rendering).
* The SQLAlchemy session is a `DB` record of row lists; `scalar_one_or_none`
  is `List.find?`; `async with session.begin()` is: the committed state is
  produced only on the success path, any raised `HTTPException` rolls the
  transaction back, leaving the caller with the pre-call state.
* bcrypt PIN checking is an abstract boolean parameter `checkpw` of the
  operation (its output is all the control flow depends on).
-/

set_option autoImplicit false

namespace Daladan

/-- The `EscrowStatus` enum from `backend/models.py` (note: the source enum has five
members, including a legacy `RELEASED = "released"`). -/
inductive EscrowStatus where
  | held
  | released
  | funds_released
  | refunded
  | disputed
deriving DecidableEq

/-- The `.value` string of each `EscrowStatus` member. -/
def EscrowStatus.value : EscrowStatus → String
  | .held => "held"
  | .released => "released"
  | .funds_released => "funds_released"
  | .refunded => "refunded"
  | .disputed => "disputed"

/-- The `ShipmentStatus` enum from `backend/models.py`. -/
inductive ShipmentStatus where
  | pending
  | loading
  | in_transit
  | delivered
deriving DecidableEq

/-- The `.value` string of each `ShipmentStatus` member. -/
def ShipmentStatus.value : ShipmentStatus → String
  | .pending => "pending"
  | .loading => "loading"
  | .in_transit => "in_transit"
  | .delivered => "delivered"

/-- The `DealStatus` enum from `backend/models.py`. -/
inductive DealStatus where
  | negotiating
  | agreed
  | in_transit
  | delivered
  | cancelled
deriving DecidableEq

/-- The `.value` string of each `DealStatus` member. -/
def DealStatus.value : DealStatus → String
  | .negotiating => "negotiating"
  | .agreed => "agreed"
  | .in_transit => "in_transit"
  | .delivered => "delivered"
  | .cancelled => "cancelled"

/-- Marker for a Python binary `float` obtained as `float(d)` from the exact
decimal `val`. Two `PyFloat`s are byte-identical floats iff their decimal
payloads are equal. -/
structure PyFloat where
  val : ℚ
deriving DecidableEq

/-- A Python value as seen by `audit._serialize_value`: `None`, a UUID, a
`Decimal`, a `datetime`, an enum member (carrying its `.value`), a plain
string, or an `int` (which falls through to the `str(value)` default). -/
inductive PyVal where
  | pynone
  | uuid (n : Nat)
  | dec (q : ℚ)
  | dt (t : Nat)
  | enumv (s : String)
  | str (s : String)
  | int (n : Int)
deriving DecidableEq

/-- A JSON-serializable value produced by `audit._serialize_value`.
`Json.float` marks a binary floating-point number (the payload is the exact
decimal it was converted from). -/
inductive Json where
  | null
  | str (s : String)
  | float (q : ℚ)
deriving DecidableEq

/-- Injective model of `datetime.isoformat()`. -/
def isoFormat (t : Nat) : String :=
  "1970-01-01T00:00:" ++ toString t

/-- Model of `audit._serialize_value`: `None` stays null, UUIDs become strings,
`Decimal` becomes `float(value)`, `datetime` becomes its ISO string, enum
members become their `.value`, everything else becomes `str(value)`. -/
def serialize_value : PyVal → Json
  | .pynone => .null
  | .uuid n => .str (toString n)
  | .dec q => .float q
  | .dt t => .str (isoFormat t)
  | .enumv s => .str s
  | .str s => .str s
  | .int n => .str (toString n)

/-- The `User` row (`backend/models.py`): only the columns read or written by the
escrow core are embedded (`id`, `full_name`, `balance`, `escrow_pin_hash`).
`balance` is kept `Option` to mirror the defensive `balance or Decimal("0")`
in the router; `escrow_pin_hash` is nullable in the schema. -/
structure User where
  id : Nat
  full_name : String
  balance : Option ℚ
  escrow_pin_hash : Option String
deriving DecidableEq

/-- The `DealGroup` row (`backend/models.py`). -/
structure DealGroup where
  id : Nat
  deal_number : Int
  title : String
  status : DealStatus
  seller_id : Option Nat
  buyer_id : Option Nat
  driver_id : Option Nat
  agreed_price_per_kg : Option ℚ
  agreed_quantity_kg : Option ℚ
  created_at : Nat
  updated_at : Nat
deriving DecidableEq

/-- The `Shipment` row (`backend/models.py`): the columns touched by the escrow
core. -/
structure Shipment where
  id : Nat
  deal_group_id : Option Nat
  status : ShipmentStatus
  delivered_at : Option Nat
deriving DecidableEq

/-- The `EscrowTransaction` row (`backend/models.py`), all eleven columns. -/
structure EscrowTransaction where
  id : Nat
  deal_group_id : Nat
  amount : ℚ
  currency : String
  status : EscrowStatus
  payer_id : Option Nat
  payee_id : Option Nat
  released_by_id : Option Nat
  idempotency_key : Option String
  released_at : Option Nat
  created_at : Nat
deriving DecidableEq

/-- The relational state visible to the escrow router. -/
structure DB where
  deals : List DealGroup
  escrows : List EscrowTransaction
  users : List User
  shipments : List Shipment
deriving DecidableEq

/-! ## Audit listener logic (`backend/audit.py`) -/

/-- The persisted attribute values of an `EscrowTransaction`, in the order of
the mapped columns, as the Python values the audit module sees. -/
def escrowFieldVals (e : EscrowTransaction) : List (String × PyVal) :=
  [("id", .uuid e.id),
   ("deal_group_id", .uuid e.deal_group_id),
   ("amount", .dec e.amount),
   ("currency", .str e.currency),
   ("status", .enumv e.status.value),
   ("payer_id", e.payer_id.elim .pynone .uuid),
   ("payee_id", e.payee_id.elim .pynone .uuid),
   ("released_by_id", e.released_by_id.elim .pynone .uuid),
   ("idempotency_key", e.idempotency_key.elim .pynone .str),
   ("released_at", e.released_at.elim .pynone .dt),
   ("created_at", .dt e.created_at)]

/-- The persisted attribute values of a `DealGroup` (the `messages`
relationship is never loaded or mutated by this core and is omitted). -/
def dealFieldVals (d : DealGroup) : List (String × PyVal) :=
  [("id", .uuid d.id),
   ("deal_number", .int d.deal_number),
   ("title", .str d.title),
   ("status", .enumv d.status.value),
   ("seller_id", d.seller_id.elim .pynone .uuid),
   ("buyer_id", d.buyer_id.elim .pynone .uuid),
   ("driver_id", d.driver_id.elim .pynone .uuid),
   ("agreed_price_per_kg", d.agreed_price_per_kg.elim .pynone .dec),
   ("agreed_quantity_kg", d.agreed_quantity_kg.elim .pynone .dec),
   ("created_at", .dt d.created_at),
   ("updated_at", .dt d.updated_at)]

/-- Model of `audit._get_changes` over aligned before/after attribute lists: for each
attribute whose value changed, an entry `(key, serialized old, serialized
new)`. -/
def changesOf (old new : List (String × PyVal)) : List (String × Json × Json) :=
  (old.zip new).filterMap fun pq =>
    if pq.1.2 = pq.2.2 then none
    else some (pq.1.1, serialize_value pq.1.2, serialize_value pq.2.2)

/-- The keys of the attributes whose value actually changed (reference for
the diff-exactness statements). -/
def changedKeys (old new : List (String × PyVal)) : List String :=
  (old.zip new).filterMap fun pq =>
    if pq.1.2 = pq.2.2 then none else some pq.1.1

/-- Model of `audit._get_snapshot`: every column value, serialized. -/
def snapshotOf (vals : List (String × PyVal)) : List (String × Json) :=
  vals.map fun p => (p.1, serialize_value p.2)

/-- An `AuditLog` row (`backend/models.py`); `changes` and `snapshot` are
kept structurally instead of as `json.dumps` text. -/
structure AuditEntry where
  action : String
  table_name : String
  record_id : String
  changes : List (String × Json × Json)
  snapshot : List (String × Json)
deriving DecidableEq

/-- The `escrow_after_update` listener: computes the diff of the flushed update;
if no field changed it returns early and no audit entry is produced,
otherwise exactly one entry with the diff and a full snapshot. -/
def escrow_after_update (old new : EscrowTransaction) : Option AuditEntry :=
  if (changesOf (escrowFieldVals old) (escrowFieldVals new)).isEmpty then none
  else some
    { action := "UPDATE"
      table_name := "escrow_transactions"
      record_id := toString new.id
      changes := changesOf (escrowFieldVals old) (escrowFieldVals new)
      snapshot := snapshotOf (escrowFieldVals new) }

/-- The `escrow_after_insert` listener: one entry, empty diff, full snapshot. -/
def escrow_after_insert (e : EscrowTransaction) : AuditEntry :=
  { action := "INSERT"
    table_name := "escrow_transactions"
    record_id := toString e.id
    changes := []
    snapshot := snapshotOf (escrowFieldVals e) }

/-- The `deal_after_update` listener (same shape as the escrow one). -/
def deal_after_update (old new : DealGroup) : Option AuditEntry :=
  if (changesOf (dealFieldVals old) (dealFieldVals new)).isEmpty then none
  else some
    { action := "UPDATE"
      table_name := "deal_groups"
      record_id := toString new.id
      changes := changesOf (dealFieldVals old) (dealFieldVals new)
      snapshot := snapshotOf (dealFieldVals new) }

/-- The `deal_after_insert` listener. -/
def deal_after_insert (d : DealGroup) : AuditEntry :=
  { action := "INSERT"
    table_name := "deal_groups"
    record_id := toString d.id
    changes := []
    snapshot := snapshotOf (dealFieldVals d) }

/-- Model of `audit._write_audit_log`: appends the entry to the audit store inside its
own transaction; the whole body is wrapped in try/except, so when the write
fails the store is unchanged and no exception escapes (the return type has no
error channel). -/
def write_audit_log (writeFails : Bool) (store : List AuditEntry)
    (entry : AuditEntry) : List AuditEntry :=
  if writeFails then store else store ++ [entry]

/-! ## Schemas (`backend/schemas/escrow.py`) -/

/-- Schema `EscrowReleaseRequest`. -/
structure EscrowReleaseRequest where
  deal_id : Nat
  pin : String
  idempotency_key : Option String
deriving DecidableEq

/-- Schema `BalanceCredit`; `amount` and `percentage` are `float` fields in the
pydantic schema. -/
structure BalanceCredit where
  user_id : String
  user_name : String
  role : String
  amount : PyFloat
  percentage : ℚ
deriving DecidableEq

/-- Schema `EscrowReleaseResponse`; `amount` is a `float` field. -/
structure EscrowReleaseResponse where
  status : String
  deal_number : Int
  deal_title : String
  escrow_id : String
  amount : PyFloat
  currency : String
  producer_credit : BalanceCredit
  driver_credit : BalanceCredit
  released_at : Nat
  idempotency_key : Option String
  message : String
deriving DecidableEq

/-- An error surfaced by the endpoint: `HTTPException(status_code, detail)`,
or an unhandled exception (`scalar_one` on a missing row in the replay
branch), which FastAPI turns into a 500. -/
inductive Err where
  | http (status : Nat) (detail : String)
  | internalError
deriving DecidableEq

/-! ## The release operation (`backend/routers/escrow.py`) -/

/-- Constant `PRODUCER_SHARE = Decimal("0.90")`. -/
def PRODUCER_SHARE : ℚ := 90 / 100

/-- Constant `DRIVER_SHARE = Decimal("0.10")`. -/
def DRIVER_SHARE : ℚ := 10 / 100

/-- Renders an amount with two decimal places, modelling the `%.2f` and
`:.2f` format specifiers used for log/response text. -/
def fmtMoney (q : ℚ) : String :=
  let c : Int := round (q * 100)
  let n : Nat := c.natAbs
  let fracStr := if n % 100 < 10 then "0" ++ toString (n % 100) else toString (n % 100)
  (if c < 0 then "-" else "") ++ toString (n / 100) ++ "." ++ fracStr

/-- Query `select(DealGroup).where(DealGroup.id == i)` + `scalar_one_or_none`. -/
def findDeal (db : DB) (i : Nat) : Option DealGroup :=
  db.deals.find? fun d => d.id == i

/-- Query `select(EscrowTransaction).where(idempotency_key == k)`. -/
def findEscrowByKey (db : DB) (k : String) : Option EscrowTransaction :=
  db.escrows.find? fun e => e.idempotency_key == some k

/-- Query `select(EscrowTransaction).where(deal_group_id == dealId)`. -/
def findEscrowByDeal (db : DB) (dealId : Nat) : Option EscrowTransaction :=
  db.escrows.find? fun e => e.deal_group_id == dealId

/-- Query `select(User).where(User.id == i)`. -/
def findUser (db : DB) (i : Nat) : Option User :=
  db.users.find? fun u => u.id == i

/-- Query `select(Shipment).where(Shipment.deal_group_id == dealId)`. -/
def findShipmentByDeal (db : DB) (dealId : Nat) : Option Shipment :=
  db.shipments.find? fun s => s.deal_group_id == some dealId

/-- Python `balance or Decimal("0")` (a stored zero is falsy but the result
is the same value, so this is value-faithful). -/
def pyOrZero (b : Option ℚ) : ℚ := b.getD 0

/-- Replace the escrow row with id `e.id` by `e` (the in-session mutation of
the locked escrow object). -/
def setEscrow (db : DB) (e : EscrowTransaction) : DB :=
  { db with escrows := db.escrows.map fun x => if x.id == e.id then e else x }

/-- Mutation `user.balance = (user.balance or Decimal("0")) + amt` on the row with id
`uid`. -/
def creditUser (db : DB) (uid : Nat) (amt : ℚ) : DB :=
  { db with users := db.users.map fun u =>
      if u.id == uid then { u with balance := some (pyOrZero u.balance + amt) } else u }

/-- Step 9: if a shipment exists for the deal, set it to DELIVERED with the
settlement timestamp (absence is not an error). -/
def deliverShipment (db : DB) (dealId : Nat) (t : Nat) : DB :=
  match findShipmentByDeal db dealId with
  | none => db
  | some s =>
    { db with shipments := db.shipments.map fun x =>
        if x.id == s.id then { x with status := .delivered, delivered_at := some t } else x }

/-- Step 6: the escrow object after the in-transaction mutation
(status → FUNDS_RELEASED, released_at/released_by stamped, idempotency key
persisted when supplied). -/
def updatedEscrow (e : EscrowTransaction) (payerId : Nat) (key : Option String)
    (t : Nat) : EscrowTransaction :=
  { e with
    status := .funds_released
    released_at := some t
    released_by_id := some payerId
    idempotency_key := match key with | some k => some k | none => e.idempotency_key }

/-- The cached response returned by the idempotent-replay branch
(lines 113-135 of the router): amounts recomputed from the stored escrow row,
`released_at` from the stored timestamp, and placeholder `"cached"` user
identifiers in both credit breakdowns. -/
def replayResponse (deal : DealGroup) (ex : EscrowTransaction) (k : String)
    (t : Nat) : EscrowReleaseResponse :=
  { status := "funds_released"
    deal_number := deal.deal_number
    deal_title := deal.title
    escrow_id := toString ex.id
    amount := PyFloat.mk ex.amount
    currency := ex.currency
    producer_credit :=
      { user_id := "cached", user_name := "cached", role := "producer"
        amount := PyFloat.mk (ex.amount * PRODUCER_SHARE), percentage := 90 }
    driver_credit :=
      { user_id := "cached", user_name := "cached", role := "driver"
        amount := PyFloat.mk (ex.amount * DRIVER_SHARE), percentage := 10 }
    released_at := ex.released_at.getD t
    idempotency_key := some k
    message := "Idempotent replay — funds were already released." }

/-- The response built on the success path (lines 276-305 of the router). -/
def settleResponse (deal : DealGroup) (e : EscrowTransaction)
    (producer driver : User) (key : Option String) (t : Nat) :
    EscrowReleaseResponse :=
  { status := "funds_released"
    deal_number := deal.deal_number
    deal_title := deal.title
    escrow_id := toString e.id
    amount := PyFloat.mk e.amount
    currency := e.currency
    producer_credit :=
      { user_id := toString producer.id, user_name := producer.full_name
        role := "producer", amount := PyFloat.mk (e.amount * PRODUCER_SHARE)
        percentage := 90 }
    driver_credit :=
      { user_id := toString driver.id, user_name := driver.full_name
        role := "driver", amount := PyFloat.mk (e.amount * DRIVER_SHARE)
        percentage := 10 }
    released_at := t
    idempotency_key := key
    message :=
      "Funds released for Deal #" ++ toString deal.deal_number ++ " — " ++
      deal.title ++ ". $" ++ fmtMoney (e.amount * PRODUCER_SHARE) ++
      " credited to " ++ producer.full_name ++ ", $" ++
      fmtMoney (e.amount * DRIVER_SHARE) ++ " credited to " ++
      driver.full_name ++ "." }

/-- The committed outcome of a successful call: the new database state, the
response, and the audit events the ORM listeners emit for the commit. -/
structure ReleaseOk where
  db : DB
  resp : EscrowReleaseResponse
deriving DecidableEq

/-- Python truthiness of the stored PIN hash: `if not payer.escrow_pin_hash`
fires for a null hash and for an empty-string hash. -/
def pyFalsy (o : Option String) : Bool :=
  match o with
  | none => true
  | some s => s.isEmpty

/-- Steps 2-10 of `release_escrow`: the atomic settlement transaction,
returning the business outcome together with the audit-write tasks scheduled
during the transaction.

On any raised `HTTPException` the transaction rolls back, so an error
business result carries no state; on success the committed state is the
sequential application of the in-session mutations (escrow update, producer
credit, driver credit, shipment delivery — `updatedEscrow` leaves `amount`
untouched, so `escrow.amount` below is the amount the mutated object still
carries).

The session factory (`backend/database.py`) leaves autoflush on, so the
step-6 escrow mutation is flushed by the step-7 producer SELECT; the
after-update listener fires at that flush and hands `_write_audit_log` to
`loop.create_task` as a fire-and-forget task running in its own session.
That scheduling point lies inside the still-open transaction: the task is
therefore also scheduled on the producer-missing and driver-missing error
paths, where it survives the subsequent rollback. Failures raised before
the producer SELECT (deal/escrow missing, status guards, payer missing,
PIN failures) schedule nothing, since the escrow row has not been mutated
or flushed yet. The later flushes (driver SELECT, shipment SELECT, commit)
only write unaudited rows (User, Shipment) and hence fire no listener. -/
def releaseTxn (checkpw : String → String → Bool) (t : Nat) (db : DB)
    (req : EscrowReleaseRequest) : Except Err ReleaseOk × List AuditEntry :=
  match findDeal db req.deal_id with
  | none => (.error (.http 404 ("Deal " ++ toString req.deal_id ++ " not found.")), [])
  | some deal =>
    match findEscrowByDeal db deal.id with
    | none => (.error (.http 404
        ("No escrow transaction found for deal #" ++ toString deal.deal_number ++ ".")), [])
    | some escrow =>
      if escrow.status = .funds_released then
        (.error (.http 409
          "Funds have already been released for this deal. Double-spending prevented."), [])
      else if escrow.status ≠ .held then
        (.error (.http 400
          ("Escrow is in " ++ escrow.status.value ++
           " state. Only held escrows can be released.")), [])
      else
        match escrow.payer_id.bind (findUser db) with
        | none => (.error (.http 404 "Payer account not found."), [])
        | some payer =>
          if pyFalsy payer.escrow_pin_hash then
            (.error (.http 403
              "Payer has no escrow PIN configured. Cannot authorize release."), [])
          else if checkpw req.pin (payer.escrow_pin_hash.getD "") = false then
            (.error (.http 403 "Invalid PIN. Authorization denied."), [])
          else
            match deal.seller_id.bind
                (findUser (setEscrow db (updatedEscrow escrow payer.id req.idempotency_key t))) with
            | none =>
              (.error (.http 404 "Producer (seller) account not found."),
                (escrow_after_update escrow
                  (updatedEscrow escrow payer.id req.idempotency_key t)).toList)
            | some producer =>
              match deal.driver_id.bind
                  (findUser (creditUser
                    (setEscrow db (updatedEscrow escrow payer.id req.idempotency_key t))
                    producer.id (escrow.amount * PRODUCER_SHARE))) with
              | none =>
                (.error (.http 404 "Driver account not found."),
                  (escrow_after_update escrow
                    (updatedEscrow escrow payer.id req.idempotency_key t)).toList)
              | some driver =>
                (.ok
                  { db := deliverShipment
                      (creditUser
                        (creditUser
                          (setEscrow db (updatedEscrow escrow payer.id req.idempotency_key t))
                          producer.id (escrow.amount * PRODUCER_SHARE))
                        driver.id (escrow.amount * DRIVER_SHARE))
                      deal.id t
                    resp := settleResponse deal
                      (updatedEscrow escrow payer.id req.idempotency_key t)
                      producer driver req.idempotency_key t },
                  (escrow_after_update escrow
                    (updatedEscrow escrow payer.id req.idempotency_key t)).toList)

/-- The handler `release_escrow` (POST /api/escrow/release): the idempotency
pre-check outside the transaction, then the atomic settlement. The replay
and pre-check branches mutate and flush nothing, so they schedule no
audit-write task. -/
def release_escrow (checkpw : String → String → Bool) (t : Nat) (db : DB)
    (req : EscrowReleaseRequest) : Except Err ReleaseOk × List AuditEntry :=
  match req.idempotency_key with
  | some key =>
    match findEscrowByKey db key with
    | some existing =>
      if existing.status = .funds_released then
        match findDeal db existing.deal_group_id with
        | some deal => (.ok { db := db, resp := replayResponse deal existing key t }, [])
        | none => (.error .internalError, [])
      else
        (.error (.http 409
          ("Idempotency key exists but escrow is in " ++ existing.status.value ++
           " state, not released.")), [])
    | none => releaseTxn checkpw t db req
  | none => releaseTxn checkpw t db req

/-- The business state observed by the caller after the call: the committed
state on success, the unchanged pre-call state after a rollback. (The audit
log lives in its own table and store; a scheduled audit task never touches
these business tables.) -/
def finalDB (checkpw : String → String → Bool) (t : Nat) (db : DB)
    (req : EscrowReleaseRequest) : DB :=
  match (release_escrow checkpw t db req).1 with
  | .ok o => o.db
  | .error _ => db

/-- The HTTP status code of a failed call (unhandled exceptions become 500). -/
def statusCodeOf : Except Err ReleaseOk → Option Nat
  | .error (.http s _) => some s
  | .error .internalError => some 500
  | .ok _ => none

/-- The audit-write tasks scheduled during the call. They are created by
`loop.create_task` at flush time, inside the transaction, and each runs
`_write_audit_log` in its own session — regardless of whether the business
transaction later commits or rolls back. -/
def auditOf (r : Except Err ReleaseOk × List AuditEntry) : List AuditEntry :=
  r.2

/-- The full request pipeline including the fire-and-forget audit delivery:
every audit task scheduled during the call eventually runs
`_write_audit_log` (which swallows its own failures) against the audit
store, whether the business transaction committed or rolled back. Returns
the final business database, the final audit store, and the HTTP outcome. -/
def release_full (checkpw : String → String → Bool) (t : Nat)
    (auditFails : Bool) (db : DB) (store : List AuditEntry)
    (req : EscrowReleaseRequest) :
    DB × List AuditEntry × Except Err EscrowReleaseResponse :=
  match release_escrow checkpw t db req with
  | (.error e, events) => (db, events.foldl (write_audit_log auditFails) store, .error e)
  | (.ok o, events) => (o.db, events.foldl (write_audit_log auditFails) store, .ok o.resp)

/-! ## Derived views used by the theorems -/

/-- The stored balance of account `uid` (0 when absent or null). -/
def balanceOf (db : DB) (uid : Nat) : ℚ :=
  pyOrZero ((findUser db uid).bind fun u => u.balance)

/-- The escrow row with primary key `i`. -/
def escrowById (db : DB) (i : Nat) : Option EscrowTransaction :=
  db.escrows.find? fun e => e.id == i

/-- The user row with primary key `i`. -/
def userById (db : DB) (i : Nat) : Option User :=
  findUser db i

/-- True when the idempotency pre-check falls through to the settlement
transaction (no key supplied, or the key not yet recorded on any escrow). -/
def precheckPasses (db : DB) (req : EscrowReleaseRequest) : Bool :=
  match req.idempotency_key with
  | none => true
  | some k => (findEscrowByKey db k).isNone

/-! ## Concrete fixtures (seed Scenario A: deal #901, $4380.00 escrow,
PIN "1234") used by witnesses and counterexamples. -/

/-- A concrete bcrypt model for witnesses: the check succeeds exactly when
the plaintext equals the stored hash. -/
def exCheck : String → String → Bool := fun p h => p == h

def exPayer : User :=
  { id := 10, full_name := "Retailer", balance := some 500, escrow_pin_hash := some "1234" }

def exProducer : User :=
  { id := 20, full_name := "Producer", balance := some 100, escrow_pin_hash := none }

def exDriver : User :=
  { id := 30, full_name := "Driver", balance := some 50, escrow_pin_hash := none }

def exDeal : DealGroup :=
  { id := 1, deal_number := 901, title := "Golden Apples", status := .in_transit
    seller_id := some 20, buyer_id := some 10, driver_id := some 30
    agreed_price_per_kg := none, agreed_quantity_kg := none
    created_at := 0, updated_at := 0 }

def exEscrow : EscrowTransaction :=
  { id := 2, deal_group_id := 1, amount := 4380, currency := "USD", status := .held
    payer_id := some 10, payee_id := some 20, released_by_id := none
    idempotency_key := none, released_at := none, created_at := 0 }

def exShipment : Shipment :=
  { id := 3, deal_group_id := some 1, status := .in_transit, delivered_at := none }

def exDb : DB :=
  { deals := [exDeal], escrows := [exEscrow]
    users := [exPayer, exProducer, exDriver], shipments := [exShipment] }

def exReqA : EscrowReleaseRequest :=
  { deal_id := 1, pin := "1234", idempotency_key := some "key-1" }

/-- The state after the Scenario A settlement. -/
def exDb2 : DB := finalDB exCheck 100 exDb exReqA

/-- The escrow row as the settlement leaves it. -/
def exEscrow2 : EscrowTransaction := updatedEscrow exEscrow 10 (some "key-1") 100

def exReqBadPin : EscrowReleaseRequest :=
  { deal_id := 1, pin := "9999", idempotency_key := none }

def exReqNoKey : EscrowReleaseRequest :=
  { deal_id := 1, pin := "1234", idempotency_key := none }

def exReqNoDeal : EscrowReleaseRequest :=
  { deal_id := 99, pin := "1234", idempotency_key := none }

def dbNoEscrow : DB := { exDb with escrows := [] }

/-- The seeded escrow already carrying the idempotency key `key-1` while
still HELD. -/
def escrowKeyHeld : EscrowTransaction := { exEscrow with idempotency_key := some "key-1" }

def escrowReleased : EscrowTransaction := { exEscrow with status := .funds_released }

def escrowDisputed : EscrowTransaction := { exEscrow with status := .disputed }

def escrowNoPayer : EscrowTransaction := { exEscrow with payer_id := none }

def payerNoPin : User := { exPayer with escrow_pin_hash := none }

def dealNoSeller : DealGroup := { exDeal with seller_id := none }

def dealNoDriver : DealGroup := { exDeal with driver_id := none }

def dbReleased : DB := { exDb with escrows := [escrowReleased] }

def dbDisputed : DB := { exDb with escrows := [escrowDisputed] }

def dbNoPayer : DB := { exDb with escrows := [escrowNoPayer] }

def dbNoPin : DB := { exDb with users := [payerNoPin, exProducer, exDriver] }

def dbNoSeller : DB := { exDb with deals := [dealNoSeller] }

def dbNoDriver : DB := { exDb with deals := [dealNoDriver] }

/-- A held escrow that already carries the idempotency key `key-1`. -/
def dbKeyHeld : DB := { exDb with escrows := [escrowKeyHeld] }

/-! ## Predicates and projections used by the claim theorems -/

/-- A failed call with HTTP status `code` whose transaction rolled back:
the observable business state is the pre-call state. -/
def failsRolledBack (checkpw : String → String → Bool) (t : Nat) (db : DB)
    (req : EscrowReleaseRequest) (code : Nat) : Prop :=
  statusCodeOf (release_escrow checkpw t db req).1 = some code ∧
  finalDB checkpw t db req = db

/-- A failed call with HTTP status `code` whose transaction rolled back and
which scheduled no audit-write task (the failure was raised before the
escrow mutation was ever flushed). -/
def failsClean (checkpw : String → String → Bool) (t : Nat) (db : DB)
    (req : EscrowReleaseRequest) (code : Nat) : Prop :=
  failsRolledBack checkpw t db req code ∧
  auditOf (release_escrow checkpw t db req) = []

/-- On success, the split amounts of the response are exactly 90 percent and
10 percent of the escrow amount in the response and sum exactly to it. -/
def SplitExactProp : Except Err ReleaseOk → Prop
  | .ok o =>
    o.resp.producer_credit.amount.val = o.resp.amount.val * PRODUCER_SHARE ∧
    o.resp.driver_credit.amount.val = o.resp.amount.val * DRIVER_SHARE ∧
    o.resp.producer_credit.amount.val + o.resp.driver_credit.amount.val = o.resp.amount.val
  | .error _ => True

/-- Allowed evolution of one escrow row across a call: unchanged, or the
HELD → FUNDS_RELEASED settlement transition; rows are never created or
dropped. -/
def statusStep : Option EscrowTransaction → Option EscrowTransaction → Prop
  | some e, some e2 => e2 = e ∨ (e.status = .held ∧ e2.status = .funds_released)
  | none, none => True
  | _, _ => False

/-- The payer recorded on the escrow of the requested deal. -/
def payerIdOf (db : DB) (req : EscrowReleaseRequest) : Option Nat :=
  (findDeal db req.deal_id).bind fun d => (findEscrowByDeal db d.id).bind fun e => e.payer_id

/-- The seller (producer) of the requested deal. -/
def sellerIdOf (db : DB) (req : EscrowReleaseRequest) : Option Nat :=
  (findDeal db req.deal_id).bind fun d => d.seller_id

/-- The driver of the requested deal. -/
def driverIdOf (db : DB) (req : EscrowReleaseRequest) : Option Nat :=
  (findDeal db req.deal_id).bind fun d => d.driver_id

/-- What the escrow after-update listener guarantees for one flushed update:
no entry exactly when no persisted field changed; otherwise one UPDATE entry
whose diff keys are exactly the changed fields and whose snapshot is the
full post-state. -/
def EscrowUpdateAuditProp (old new : EscrowTransaction) : Prop :=
  match escrow_after_update old new with
  | none => escrowFieldVals old = escrowFieldVals new
  | some a =>
    escrowFieldVals old ≠ escrowFieldVals new ∧
    a.action = "UPDATE" ∧
    a.table_name = "escrow_transactions" ∧
    a.record_id = toString new.id ∧
    a.snapshot = snapshotOf (escrowFieldVals new) ∧
    a.changes.map Prod.fst = changedKeys (escrowFieldVals old) (escrowFieldVals new) ∧
    ∀ k, k ∈ a.changes.map Prod.fst ↔
      (escrowFieldVals old).lookup k ≠ (escrowFieldVals new).lookup k

/-- The deal-group analogue of `EscrowUpdateAuditProp`. -/
def DealUpdateAuditProp (old new : DealGroup) : Prop :=
  match deal_after_update old new with
  | none => dealFieldVals old = dealFieldVals new
  | some a =>
    dealFieldVals old ≠ dealFieldVals new ∧
    a.action = "UPDATE" ∧
    a.table_name = "deal_groups" ∧
    a.record_id = toString new.id ∧
    a.snapshot = snapshotOf (dealFieldVals new) ∧
    a.changes.map Prod.fst = changedKeys (dealFieldVals old) (dealFieldVals new) ∧
    ∀ k, k ∈ a.changes.map Prod.fst ↔
      (dealFieldVals old).lookup k ≠ (dealFieldVals new).lookup k

/-- Membership in the four-member status set the specification names. -/
def specStatusSet (s : EscrowStatus) : Bool :=
  s == .held || s == .funds_released || s == .refunded || s == .disputed

/-- The producer-credit `user_id` of a successful response. -/
def respUserIdOf : Except Err ReleaseOk → Option String
  | .ok o => some o.resp.producer_credit.user_id
  | .error _ => none

/-- The `amount` field of a successful response. -/
def respAmountOf : Except Err ReleaseOk → Option PyFloat
  | .ok o => some o.resp.amount
  | .error _ => none

/-- True exactly on the binary-float JSON constructor. -/
def Json.isFloatVal : Json → Bool
  | .float _ => true
  | _ => false

/-- The business-visible part of the full pipeline result (final database and
HTTP outcome), with the audit store projected away. -/
def businessOf (r : DB × List AuditEntry × Except Err EscrowReleaseResponse) :
    DB × Except Err EscrowReleaseResponse :=
  (r.1, r.2.2)


/-! ## Helper lemmas -/

lemma find?_congr {α : Type} (p q : α → Bool) (l : List α) (h : ∀ x, p x = q x) :
    l.find? p = l.find? q := by
  induction l with
  | nil => rfl
  | cons a l ih => cases hqa : q a <;> simp [List.find?_cons, h a, hqa, ih]

lemma find?_map_pres {α : Type} (f : α → α) (p : α → Bool) (l : List α)
    (hf : ∀ x, p (f x) = p x) : (l.map f).find? p = (l.find? p).map f := by
  rw [List.find?_map]
  rw [find?_congr (p ∘ f) p l hf]

lemma release_escrow_precheck (checkpw : String → String → Bool) (t : Nat) (db : DB)
    (req : EscrowReleaseRequest) (h : precheckPasses db req = true) :
    release_escrow checkpw t db req = releaseTxn checkpw t db req := by
  unfold precheckPasses at h
  unfold release_escrow
  cases hk : req.idempotency_key with
  | none => rfl
  | some k =>
    simp only [hk] at h
    simp only [Option.eq_none_of_isNone h]

lemma findUser_setEscrow (db : DB) (e : EscrowTransaction) (i : Nat) :
    findUser (setEscrow db e) i = findUser db i := rfl

lemma findUser_deliverShipment (db : DB) (d t i : Nat) :
    findUser (deliverShipment db d t) i = findUser db i := by
  unfold deliverShipment
  cases findShipmentByDeal db d <;> rfl

lemma creditUser_pres_find (u : Nat) (a : ℚ) (i : Nat) : ∀ x : User,
    ((if x.id == u then { x with balance := some (pyOrZero x.balance + a) } else x).id == i)
      = (x.id == i) := by
  intro x
  cases hxu : x.id == u <;> simp [hxu]

lemma findUser_creditUser (db : DB) (u : Nat) (a : ℚ) (i : Nat) :
    findUser (creditUser db u a) i =
      (findUser db i).map
        (fun x => if x.id == u then { x with balance := some (pyOrZero x.balance + a) } else x) := by
  unfold findUser creditUser
  exact find?_map_pres _ _ _ (creditUser_pres_find u a i)

lemma findUser_creditUser_ne (db : DB) (u : Nat) (a : ℚ) (i : Nat) (h : i ≠ u) :
    findUser (creditUser db u a) i = findUser db i := by
  rw [findUser_creditUser]
  cases hf : findUser db i with
  | none => rfl
  | some x =>
    have hxi : x.id = i := by simpa using List.find?_some hf
    have hne : x.id ≠ u := by simp [hxi, h]
    simp [hne]

lemma balanceOf_creditUser_ge (db : DB) (u : Nat) (a : ℚ) (i : Nat) (ha : 0 ≤ a) :
    balanceOf db i ≤ balanceOf (creditUser db u a) i := by
  unfold balanceOf
  rw [findUser_creditUser]
  cases hf : findUser db i with
  | none => simp
  | some x =>
    by_cases hxu : x.id = u
    · simp [hxu, pyOrZero]
      linarith
    · simp [hxu]

lemma balanceOf_setEscrow (db : DB) (e : EscrowTransaction) (i : Nat) :
    balanceOf (setEscrow db e) i = balanceOf db i := rfl

lemma escrowById_creditUser (db : DB) (u : Nat) (a : ℚ) (i : Nat) :
    escrowById (creditUser db u a) i = escrowById db i := rfl

lemma escrowById_deliverShipment (db : DB) (d t i : Nat) :
    escrowById (deliverShipment db d t) i = escrowById db i := by
  unfold deliverShipment
  cases findShipmentByDeal db d <;> rfl

lemma escrowById_setEscrow (db : DB) (e : EscrowTransaction) (i : Nat) :
    escrowById (setEscrow db e) i =
      (escrowById db i).map (fun x => if x.id == e.id then e else x) := by
  unfold escrowById setEscrow
  refine find?_map_pres _ _ _ (fun x => ?_)
  cases hxe : x.id == e.id
  · simp [hxe]
  · have hx : x.id = e.id := by simpa using hxe
    simp [hxe, hx]

lemma releaseTxn_ok_inv {checkpw : String → String → Bool} {t : Nat} {db : DB}
    {req : EscrowReleaseRequest} {o : ReleaseOk} {ev : List AuditEntry}
    (h : releaseTxn checkpw t db req = (.ok o, ev)) :
    ∃ deal escrow payer producer driver,
      findDeal db req.deal_id = some deal ∧
      findEscrowByDeal db deal.id = some escrow ∧
      escrow.status = .held ∧
      escrow.payer_id.bind (findUser db) = some payer ∧
      deal.seller_id.bind
        (findUser (setEscrow db (updatedEscrow escrow payer.id req.idempotency_key t)))
        = some producer ∧
      deal.driver_id.bind
        (findUser (creditUser
          (setEscrow db (updatedEscrow escrow payer.id req.idempotency_key t))
          producer.id (escrow.amount * PRODUCER_SHARE)))
        = some driver ∧
      o = { db := deliverShipment
              (creditUser
                (creditUser
                  (setEscrow db (updatedEscrow escrow payer.id req.idempotency_key t))
                  producer.id (escrow.amount * PRODUCER_SHARE))
                driver.id (escrow.amount * DRIVER_SHARE))
              deal.id t
            resp := settleResponse deal
              (updatedEscrow escrow payer.id req.idempotency_key t)
              producer driver req.idempotency_key t } ∧
      ev = (escrow_after_update escrow
              (updatedEscrow escrow payer.id req.idempotency_key t)).toList := by
  unfold releaseTxn at h
  cases h1 : findDeal db req.deal_id with
  | none => simp only [h1] at h; exact Except.noConfusion (congrArg Prod.fst h)
  | some deal =>
  simp only [h1] at h
  cases h2 : findEscrowByDeal db deal.id with
  | none => simp only [h2] at h; exact Except.noConfusion (congrArg Prod.fst h)
  | some escrow =>
  simp only [h2] at h
  by_cases h3 : escrow.status = .funds_released
  · rw [if_pos h3] at h; exact Except.noConfusion (congrArg Prod.fst h)
  rw [if_neg h3] at h
  by_cases h4 : escrow.status = .held
  swap
  · rw [if_pos h4] at h; exact Except.noConfusion (congrArg Prod.fst h)
  rw [if_neg (not_not_intro h4)] at h
  cases hp : escrow.payer_id.bind (findUser db) with
  | none => simp only [hp] at h; exact Except.noConfusion (congrArg Prod.fst h)
  | some payer =>
  simp only [hp] at h
  cases h5 : pyFalsy payer.escrow_pin_hash with
  | true =>
    simp only [h5, if_true] at h
    exact Except.noConfusion (congrArg Prod.fst h)
  | false =>
  simp only [h5, Bool.false_eq_true, if_false] at h
  by_cases h6 : checkpw req.pin (payer.escrow_pin_hash.getD "") = false
  · rw [if_pos h6] at h; exact Except.noConfusion (congrArg Prod.fst h)
  rw [if_neg h6] at h
  cases h7 : deal.seller_id.bind
      (findUser (setEscrow db (updatedEscrow escrow payer.id req.idempotency_key t))) with
  | none => simp only [h7] at h; exact Except.noConfusion (congrArg Prod.fst h)
  | some producer =>
  simp only [h7] at h
  cases h8 : deal.driver_id.bind
      (findUser (creditUser
        (setEscrow db (updatedEscrow escrow payer.id req.idempotency_key t))
        producer.id (escrow.amount * PRODUCER_SHARE))) with
  | none => simp only [h8] at h; exact Except.noConfusion (congrArg Prod.fst h)
  | some driver =>
  simp only [h8] at h
  have hfst := congrArg Prod.fst h
  have hsnd := congrArg Prod.snd h
  simp only at hfst hsnd
  injection hfst with hfst
  exact ⟨deal, escrow, payer, producer, driver, rfl, h2, h4, hp, h7, h8,
    hfst.symm, hsnd.symm⟩

lemma changesOf_cons (a b : String × PyVal) (l m : List (String × PyVal)) :
    changesOf (a :: l) (b :: m) =
      if a.2 = b.2 then changesOf l m
      else (a.1, serialize_value a.2, serialize_value b.2) :: changesOf l m := by
  simp only [changesOf, List.zip_cons_cons, List.filterMap_cons]
  by_cases hc : a.2 = b.2 <;> simp [hc]

lemma changedKeys_cons (a b : String × PyVal) (l m : List (String × PyVal)) :
    changedKeys (a :: l) (b :: m) =
      if a.2 = b.2 then changedKeys l m else a.1 :: changedKeys l m := by
  simp only [changedKeys, List.zip_cons_cons, List.filterMap_cons]
  by_cases hc : a.2 = b.2 <;> simp [hc]

lemma map_fst_changesOf (l₁ l₂ : List (String × PyVal)) :
    (changesOf l₁ l₂).map Prod.fst = changedKeys l₁ l₂ := by
  induction l₁ generalizing l₂ with
  | nil => rfl
  | cons a l ih =>
    cases l₂ with
    | nil => rfl
    | cons b m =>
      rw [changesOf_cons, changedKeys_cons]
      by_cases hc : a.2 = b.2 <;> simp [hc, ih]

lemma changesOf_eq_nil_iff (l₁ l₂ : List (String × PyVal))
    (hk : l₁.map Prod.fst = l₂.map Prod.fst) :
    changesOf l₁ l₂ = [] ↔ l₁ = l₂ := by
  induction l₁ generalizing l₂ with
  | nil =>
    cases l₂ with
    | nil => simp [changesOf]
    | cons b m => simp at hk
  | cons a l ih =>
    cases l₂ with
    | nil => simp at hk
    | cons b m =>
      obtain ⟨hab, htl⟩ : a.1 = b.1 ∧ l.map Prod.fst = m.map Prod.fst := by simpa using hk
      rw [changesOf_cons]
      by_cases hc : a.2 = b.2
      · rw [if_pos hc]
        rw [ih m htl]
        have hab2 : a = b := by
          obtain ⟨x1, x2⟩ := a
          obtain ⟨y1, y2⟩ := b
          simp only at hab hc
          rw [hab, hc]
        rw [hab2]
        simp
      · rw [if_neg hc]
        constructor
        · intro h; exact absurd h (by simp)
        · intro h
          injection h with h1 h2
          exact absurd (congrArg Prod.snd h1) hc

lemma changedKeys_subset (l₁ l₂ : List (String × PyVal)) (k : String)
    (hk : k ∈ changedKeys l₁ l₂) : k ∈ l₁.map Prod.fst := by
  induction l₁ generalizing l₂ with
  | nil => cases l₂ <;> simp [changedKeys] at hk
  | cons a l ih =>
    cases l₂ with
    | nil => simp [changedKeys] at hk
    | cons b m =>
      rw [changedKeys_cons] at hk
      by_cases hc : a.2 = b.2
      · rw [if_pos hc] at hk
        exact .tail _ (ih m hk)
      · rw [if_neg hc] at hk
        rcases List.mem_cons.mp hk with h | h
        · exact h ▸ .head _
        · exact .tail _ (ih m h)

lemma lookup_cons (k₁ : String) (v₁ : PyVal) (l : List (String × PyVal)) (k : String) :
    ((k₁, v₁) :: l).lookup k = if k = k₁ then some v₁ else l.lookup k := by
  by_cases hc : k = k₁
  · simp [List.lookup, hc]
  · have hb : (k == k₁) = false := beq_eq_false_iff_ne.mpr hc
    simp [List.lookup, hb, hc]

lemma mem_changedKeys_iff (l₁ l₂ : List (String × PyVal))
    (hk : l₁.map Prod.fst = l₂.map Prod.fst) (hnd : (l₁.map Prod.fst).Nodup)
    (k : String) :
    k ∈ changedKeys l₁ l₂ ↔ l₁.lookup k ≠ l₂.lookup k := by
  induction l₁ generalizing l₂ with
  | nil =>
    cases l₂ with
    | nil => simp [changedKeys]
    | cons b m => simp at hk
  | cons a l ih =>
    cases l₂ with
    | nil => simp at hk
    | cons b m =>
      obtain ⟨ka, va⟩ := a
      obtain ⟨kb, vb⟩ := b
      obtain ⟨hab, htl⟩ : ka = kb ∧ l.map Prod.fst = m.map Prod.fst := by simpa using hk
      obtain ⟨hna, hndl⟩ : ka ∉ l.map Prod.fst ∧ (l.map Prod.fst).Nodup := by simpa using hnd
      rw [changedKeys_cons, lookup_cons, lookup_cons, ← hab]
      dsimp only
      by_cases hk1 : k = ka
      · rw [if_pos hk1, if_pos hk1]
        have hna2 : k ∉ l.map Prod.fst := by rw [hk1]; exact hna
        by_cases hc : va = vb
        · rw [if_pos hc]
          constructor
          · intro hmem
            exact absurd (changedKeys_subset l m k hmem) hna2
          · intro hne
            exact absurd (by rw [hc]) hne
        · rw [if_neg hc]
          simp [hk1, hc]
      · rw [if_neg hk1, if_neg hk1]
        by_cases hc : va = vb
        · rw [if_pos hc]
          exact ih m htl hndl
        · rw [if_neg hc]
          simp only [List.mem_cons]
          rw [ih m htl hndl]
          simp [hk1]

lemma release_escrow_ok_inv {checkpw : String → String → Bool} {t : Nat} {db : DB}
    {req : EscrowReleaseRequest} {o : ReleaseOk} {ev : List AuditEntry}
    (h : release_escrow checkpw t db req = (.ok o, ev)) :
    (∃ k ex deal, req.idempotency_key = some k ∧ findEscrowByKey db k = some ex ∧
      ex.status = .funds_released ∧ findDeal db ex.deal_group_id = some deal ∧
      o = { db := db, resp := replayResponse deal ex k t } ∧ ev = []) ∨
    releaseTxn checkpw t db req = (.ok o, ev) := by
  unfold release_escrow at h
  cases hk : req.idempotency_key with
  | none => simp only [hk] at h; exact .inr h
  | some k =>
  simp only [hk] at h
  cases he : findEscrowByKey db k with
  | none => simp only [he] at h; exact .inr h
  | some ex =>
  simp only [he] at h
  by_cases hst : ex.status = .funds_released
  · rw [if_pos hst] at h
    cases hd : findDeal db ex.deal_group_id with
    | none =>
      simp only [hd] at h
      exact Except.noConfusion (congrArg Prod.fst h)
    | some deal =>
      simp only [hd] at h
      have hfst := congrArg Prod.fst h
      have hsnd := congrArg Prod.snd h
      simp only at hfst hsnd
      injection hfst with hfst
      exact .inl ⟨k, ex, deal, rfl, he, hst, hd, hfst.symm, hsnd.symm⟩
  · rw [if_neg hst] at h
    exact Except.noConfusion (congrArg Prod.fst h)

lemma balanceOf_deliverShipment (db : DB) (d t i : Nat) :
    balanceOf (deliverShipment db d t) i = balanceOf db i := by
  unfold balanceOf
  rw [findUser_deliverShipment]

lemma failsRolledBack_of_error {checkpw : String → String → Bool} {t : Nat} {db : DB}
    {req : EscrowReleaseRequest} {code : Nat} {ev : List AuditEntry} (detail : String)
    (h : release_escrow checkpw t db req = (.error (.http code detail), ev)) :
    failsRolledBack checkpw t db req code := by
  simp [failsRolledBack, finalDB, statusCodeOf, h]

lemma failsClean_of_error {checkpw : String → String → Bool} {t : Nat} {db : DB}
    {req : EscrowReleaseRequest} {code : Nat} (detail : String)
    (h : release_escrow checkpw t db req = (.error (.http code detail), [])) :
    failsClean checkpw t db req code := by
  refine ⟨failsRolledBack_of_error detail h, ?_⟩
  simp [auditOf, h]

lemma statusStep_refl (x : Option EscrowTransaction) : statusStep x x := by
  cases x <;> simp [statusStep]

lemma foldl_write_audit_fail (l : List AuditEntry) (store : List AuditEntry) :
    l.foldl (write_audit_log true) store = store := by
  induction l generalizing store with
  | nil => rfl
  | cons a l ih => simp [List.foldl_cons, write_audit_log, ih]

lemma foldl_write_audit_ok (l : List AuditEntry) (store : List AuditEntry) :
    l.foldl (write_audit_log false) store = store ++ l := by
  induction l generalizing store with
  | nil => simp
  | cons a l ih => simp [List.foldl_cons, write_audit_log, ih]

/-! ## Claim theorems -/

/-- C1: for every release call that succeeds, the producer credit in the response
is exactly `0.90 * A` and the driver credit exactly `0.10 * A` where `A` is
the escrow amount carried by the response, and the two credits sum exactly to `A`
(the Decimal arithmetic is exact, so the rounding remainder kept by the
producer is zero). -/
theorem split_exact (checkpw : String → String → Bool) (t : Nat) (db : DB)
    (req : EscrowReleaseRequest) :
    SplitExactProp (release_escrow checkpw t db req).1 := by
  cases hrel : release_escrow checkpw t db req with
  | mk res ev =>
  cases res with
  | error e => trivial
  | ok o =>
    rcases release_escrow_ok_inv hrel with ⟨k, ex, deal, hk, he, hst, hd, ho, hev⟩ | htxn
    · subst ho
      refine ⟨rfl, rfl, ?_⟩
      show ex.amount * PRODUCER_SHARE + ex.amount * DRIVER_SHARE = ex.amount
      simp only [PRODUCER_SHARE, DRIVER_SHARE]
      ring
    · rcases releaseTxn_ok_inv htxn with
        ⟨deal, escrow, payer, producer, driver, h1, h2, hheld, h4, h5, h6, ho, hev⟩
      subst ho
      refine ⟨rfl, rfl, ?_⟩
      show (updatedEscrow escrow payer.id req.idempotency_key t).amount * PRODUCER_SHARE +
            (updatedEscrow escrow payer.id req.idempotency_key t).amount * DRIVER_SHARE =
            (updatedEscrow escrow payer.id req.idempotency_key t).amount
      simp only [PRODUCER_SHARE, DRIVER_SHARE]
      ring

/-- C2: the settlement status guards. Inside the transaction, a locked
escrow already FUNDS_RELEASED fails with 409 and a status that is neither
HELD nor FUNDS_RELEASED fails with 400; in the pre-check, an idempotency key
recorded on an escrow that is not FUNDS_RELEASED fails with 409. Each of
these failures leaves the state unchanged, credits no balance, and emits no
audit event. -/
theorem release_status_guards (checkpw : String → String → Bool) (t : Nat)
    (db : DB) (req : EscrowReleaseRequest) :
    (∀ k ex, req.idempotency_key = some k → findEscrowByKey db k = some ex →
      ex.status ≠ .funds_released → failsClean checkpw t db req 409) ∧
    (∀ deal escrow, precheckPasses db req = true →
      findDeal db req.deal_id = some deal →
      findEscrowByDeal db deal.id = some escrow →
      escrow.status = .funds_released → failsClean checkpw t db req 409) ∧
    (∀ deal escrow, precheckPasses db req = true →
      findDeal db req.deal_id = some deal →
      findEscrowByDeal db deal.id = some escrow →
      escrow.status ≠ .funds_released → escrow.status ≠ .held →
      failsClean checkpw t db req 400) := by
  refine ⟨?_, ?_, ?_⟩
  · intro k ex hk he hst
    refine failsClean_of_error ("Idempotency key exists but escrow is in " ++
      ex.status.value ++ " state, not released.") ?_
    unfold release_escrow
    simp only [hk, he]
    rw [if_neg hst]
  · intro deal escrow hpre hd he hst
    have heq := release_escrow_precheck checkpw t db req hpre
    refine failsClean_of_error
      "Funds have already been released for this deal. Double-spending prevented."
      (heq.trans ?_)
    unfold releaseTxn
    simp only [hd, he]
    rw [if_pos hst]
  · intro deal escrow hpre hd he hst hheld
    have heq := release_escrow_precheck checkpw t db req hpre
    refine failsClean_of_error ("Escrow is in " ++ escrow.status.value ++
      " state. Only held escrows can be released.") (heq.trans ?_)
    unfold releaseTxn
    simp only [hd, he]
    rw [if_neg hst, if_pos hheld]

/-- C3: every failing release call aborts the whole settlement unit. For
each failure mode of the transaction — deal missing, escrow missing, already
released, invalid state, payer account missing, no PIN configured (null or
empty hash), wrong PIN, producer account missing, driver account missing —
the call returns the corresponding error and the observable business state
equals the pre-call state: escrow status, shipment status and every account
balance are exactly as before, with no partial credit observable. The seven
failures raised before the escrow mutation is flushed additionally schedule
no audit-write task; the producer-missing and driver-missing failures occur
after the autoflush at the producer SELECT, so they do schedule the
escrow-update audit task, which survives the rollback, while still rolling
back every business-table change. -/
theorem release_failures_atomic (checkpw : String → String → Bool) (t : Nat)
    (db : DB) (req : EscrowReleaseRequest)
    (hpre : precheckPasses db req = true) :
    (findDeal db req.deal_id = none → failsClean checkpw t db req 404) ∧
    (∀ deal, findDeal db req.deal_id = some deal →
      findEscrowByDeal db deal.id = none → failsClean checkpw t db req 404) ∧
    (∀ deal escrow, findDeal db req.deal_id = some deal →
      findEscrowByDeal db deal.id = some escrow →
      escrow.status = .funds_released → failsClean checkpw t db req 409) ∧
    (∀ deal escrow, findDeal db req.deal_id = some deal →
      findEscrowByDeal db deal.id = some escrow →
      escrow.status ≠ .funds_released → escrow.status ≠ .held →
      failsClean checkpw t db req 400) ∧
    (∀ deal escrow, findDeal db req.deal_id = some deal →
      findEscrowByDeal db deal.id = some escrow → escrow.status = .held →
      escrow.payer_id.bind (findUser db) = none → failsClean checkpw t db req 404) ∧
    (∀ deal escrow payer, findDeal db req.deal_id = some deal →
      findEscrowByDeal db deal.id = some escrow → escrow.status = .held →
      escrow.payer_id.bind (findUser db) = some payer →
      pyFalsy payer.escrow_pin_hash = true → failsClean checkpw t db req 403) ∧
    (∀ deal escrow payer, findDeal db req.deal_id = some deal →
      findEscrowByDeal db deal.id = some escrow → escrow.status = .held →
      escrow.payer_id.bind (findUser db) = some payer →
      pyFalsy payer.escrow_pin_hash = false →
      checkpw req.pin (payer.escrow_pin_hash.getD "") = false →
      failsClean checkpw t db req 403) ∧
    (∀ deal escrow payer, findDeal db req.deal_id = some deal →
      findEscrowByDeal db deal.id = some escrow → escrow.status = .held →
      escrow.payer_id.bind (findUser db) = some payer →
      pyFalsy payer.escrow_pin_hash = false →
      checkpw req.pin (payer.escrow_pin_hash.getD "") = true →
      deal.seller_id.bind
        (findUser (setEscrow db (updatedEscrow escrow payer.id req.idempotency_key t)))
        = none →
      failsRolledBack checkpw t db req 404 ∧
        auditOf (release_escrow checkpw t db req) =
          (escrow_after_update escrow
            (updatedEscrow escrow payer.id req.idempotency_key t)).toList) ∧
    (∀ deal escrow payer producer, findDeal db req.deal_id = some deal →
      findEscrowByDeal db deal.id = some escrow → escrow.status = .held →
      escrow.payer_id.bind (findUser db) = some payer →
      pyFalsy payer.escrow_pin_hash = false →
      checkpw req.pin (payer.escrow_pin_hash.getD "") = true →
      deal.seller_id.bind
        (findUser (setEscrow db (updatedEscrow escrow payer.id req.idempotency_key t)))
        = some producer →
      deal.driver_id.bind
        (findUser (creditUser
          (setEscrow db (updatedEscrow escrow payer.id req.idempotency_key t))
          producer.id (escrow.amount * PRODUCER_SHARE)))
        = none →
      failsRolledBack checkpw t db req 404 ∧
        auditOf (release_escrow checkpw t db req) =
          (escrow_after_update escrow
            (updatedEscrow escrow payer.id req.idempotency_key t)).toList) := by
  have heq := release_escrow_precheck checkpw t db req hpre
  refine ⟨?_, ?_, ?_, ?_, ?_, ?_, ?_, ?_, ?_⟩
  · intro hd
    refine failsClean_of_error
      ("Deal " ++ toString req.deal_id ++ " not found.") (heq.trans ?_)
    unfold releaseTxn
    simp only [hd]
  · intro deal hd he
    refine failsClean_of_error
      ("No escrow transaction found for deal #" ++ toString deal.deal_number ++ ".")
      (heq.trans ?_)
    unfold releaseTxn
    simp only [hd, he]
  · intro deal escrow hd he hst
    refine failsClean_of_error
      "Funds have already been released for this deal. Double-spending prevented."
      (heq.trans ?_)
    unfold releaseTxn
    simp only [hd, he]
    rw [if_pos hst]
  · intro deal escrow hd he hst hheld
    refine failsClean_of_error ("Escrow is in " ++ escrow.status.value ++
      " state. Only held escrows can be released.") (heq.trans ?_)
    unfold releaseTxn
    simp only [hd, he]
    rw [if_neg hst, if_pos hheld]
  · intro deal escrow hd he hheld hp
    refine failsClean_of_error "Payer account not found." (heq.trans ?_)
    unfold releaseTxn
    simp only [hd, he]
    rw [if_neg (by simp [hheld]), if_neg (not_not_intro hheld)]
    simp only [hp]
  · intro deal escrow payer hd he hheld hp hfalsy
    refine failsClean_of_error
      "Payer has no escrow PIN configured. Cannot authorize release."
      (heq.trans ?_)
    unfold releaseTxn
    simp only [hd, he]
    rw [if_neg (by simp [hheld]), if_neg (not_not_intro hheld)]
    simp only [hp]
    rw [if_pos hfalsy]
  · intro deal escrow payer hd he hheld hp hfalsy hpin
    refine failsClean_of_error
      "Invalid PIN. Authorization denied." (heq.trans ?_)
    unfold releaseTxn
    simp only [hd, he]
    rw [if_neg (by simp [hheld]), if_neg (not_not_intro hheld)]
    simp only [hp]
    rw [if_neg (by simp [hfalsy]), if_pos hpin]
  · intro deal escrow payer hd he hheld hp hfalsy hpin hsel
    have hrel : release_escrow checkpw t db req =
        (.error (.http 404 "Producer (seller) account not found."),
          (escrow_after_update escrow
            (updatedEscrow escrow payer.id req.idempotency_key t)).toList) := by
      refine heq.trans ?_
      unfold releaseTxn
      simp only [hd, he]
      rw [if_neg (by simp [hheld]), if_neg (not_not_intro hheld)]
      simp only [hp]
      rw [if_neg (by simp [hfalsy]), if_neg (by simp [hpin])]
      simp only [hsel]
    exact ⟨failsRolledBack_of_error "Producer (seller) account not found." hrel,
      by simp only [auditOf, hrel]⟩
  · intro deal escrow payer producer hd he hheld hp hfalsy hpin hsel hdrv
    have hrel : release_escrow checkpw t db req =
        (.error (.http 404 "Driver account not found."),
          (escrow_after_update escrow
            (updatedEscrow escrow payer.id req.idempotency_key t)).toList) := by
      refine heq.trans ?_
      unfold releaseTxn
      simp only [hd, he]
      rw [if_neg (by simp [hheld]), if_neg (not_not_intro hheld)]
      simp only [hp]
      rw [if_neg (by simp [hfalsy]), if_neg (by simp [hpin])]
      simp only [hsel, hdrv]
    exact ⟨failsRolledBack_of_error "Driver account not found." hrel,
      by simp only [auditOf, hrel]⟩

/-- C6 counterexample: the audit append is not strictly post-commit. On a
state whose deal has no seller, the release fails with 404 and the whole
business transaction rolls back — the final business state equals the
pre-call state — yet the audit task scheduled at the producer-SELECT
autoflush still runs in its own session and appends an escrow-update record
to the audit store, so an audit append happens although the primary
business transaction never committed. -/
theorem audit_write_survives_rollback :
    statusCodeOf (release_escrow exCheck 100 dbNoSeller exReqNoKey).1 = some 404 ∧
    finalDB exCheck 100 dbNoSeller exReqNoKey = dbNoSeller ∧
    (release_full exCheck 100 false dbNoSeller [] exReqNoKey).2.1 ≠ [] :=
  ⟨by decide, by decide, by decide⟩

/-- C6 (amended): the audit delivery is fire-and-forget and best-effort, not
post-commit. The business result (final database and HTTP outcome) is
identical whether or not the audit write fails; when the audit write fails
the store stays exactly as it was; and when it succeeds the store grows by
exactly the tasks scheduled during the call — which are delivered whether
the business transaction committed or rolled back, because they were handed
to `loop.create_task` at flush time inside the open transaction. -/
theorem audit_best_effort (checkpw : String → String → Bool) (t : Nat)
    (auditFails : Bool) (db : DB) (store : List AuditEntry)
    (req : EscrowReleaseRequest) :
    businessOf (release_full checkpw t auditFails db store req) =
      businessOf (release_full checkpw t false db store req) ∧
    (release_full checkpw t true db store req).2.1 = store ∧
    (release_full checkpw t false db store req).2.1 =
      store ++ auditOf (release_escrow checkpw t db req) := by
  cases hrel : release_escrow checkpw t db req with
  | mk res ev =>
  cases res with
  | error e =>
    refine ⟨?_, ?_, ?_⟩
    · simp [release_full, businessOf, hrel]
    · simp only [release_full, hrel]
      exact foldl_write_audit_fail ev store
    · simp only [release_full, hrel, auditOf]
      exact foldl_write_audit_ok ev store
  | ok o =>
    refine ⟨?_, ?_, ?_⟩
    · simp [release_full, businessOf, hrel]
    · simp only [release_full, hrel]
      exact foldl_write_audit_fail ev store
    · simp only [release_full, hrel, auditOf]
      exact foldl_write_audit_ok ev store

/-- C4 (amended): when the supplied idempotency key is already recorded on
an escrow whose status is FUNDS_RELEASED, the call returns without touching
the state (same database, no audit event, no balance changed, the settlement
is not re-executed) and the cached response is computed deterministically
from the stored row: the amount and the 90/10 split amounts are the float
images of the stored exact decimals (hence byte-identical to the original
settlement response amounts), `released_at` is the stored release timestamp,
`escrow_id` the stored escrow id — but the credit breakdowns carry the
placeholder string `cached` as user id and name instead of the original
account identifiers. -/
theorem replay_returns_cached (checkpw : String → String → Bool) (t : Nat)
    (db : DB) (req : EscrowReleaseRequest) (k : String)
    (ex : EscrowTransaction) (deal : DealGroup)
    (hk : req.idempotency_key = some k)
    (hfind : findEscrowByKey db k = some ex)
    (hst : ex.status = .funds_released)
    (hdeal : findDeal db ex.deal_group_id = some deal) :
    release_escrow checkpw t db req =
      (.ok { db := db, resp := replayResponse deal ex k t }, []) ∧
    (replayResponse deal ex k t).amount = PyFloat.mk ex.amount ∧
    (replayResponse deal ex k t).producer_credit.amount =
      PyFloat.mk (ex.amount * PRODUCER_SHARE) ∧
    (replayResponse deal ex k t).driver_credit.amount =
      PyFloat.mk (ex.amount * DRIVER_SHARE) ∧
    (replayResponse deal ex k t).released_at = ex.released_at.getD t ∧
    (replayResponse deal ex k t).escrow_id = toString ex.id ∧
    (replayResponse deal ex k t).producer_credit.user_id = "cached" ∧
    (replayResponse deal ex k t).producer_credit.user_name = "cached" := by
  refine ⟨?_, rfl, rfl, rfl, rfl, rfl, rfl, rfl⟩
  unfold release_escrow
  simp only [hk, hfind]
  rw [if_pos hst]
  simp only [hdeal]

/-- C4 counterexample: the replay is not byte-identical to the original
settlement result. Settling the seeded deal produces a response whose
producer credit carries `user_id = "20"` (the account id of the producer); the
replay of the same request against the settled state answers with the
placeholder `user_id = "cached"`, a different identifier. -/
theorem replay_not_byte_identical :
    respUserIdOf (release_escrow exCheck 100 exDb exReqA).1 = some "20" ∧
    respUserIdOf (release_escrow exCheck 200 exDb2 exReqA).1 = some "cached" ∧
    ("20" : String) ≠ "cached" :=
  ⟨by decide, by decide, by decide⟩

/-- C5 (amended): the audit listeners. An update with at least one changed
persisted field produces exactly one UPDATE entry whose diff keys are
exactly the fields whose value actually changed and whose snapshot is the
full post-state; an update with zero changed fields produces no entry at
all; an insert produces exactly one INSERT entry with an empty diff and a
full snapshot. This holds for both audited tables, EscrowTransaction and
DealGroup. -/
theorem audit_diff_exact :
    (∀ old new : EscrowTransaction, EscrowUpdateAuditProp old new) ∧
    (∀ e : EscrowTransaction,
      (escrow_after_insert e).action = "INSERT" ∧
      (escrow_after_insert e).changes = [] ∧
      (escrow_after_insert e).snapshot = snapshotOf (escrowFieldVals e)) ∧
    (∀ old new : DealGroup, DealUpdateAuditProp old new) ∧
    (∀ d : DealGroup,
      (deal_after_insert d).action = "INSERT" ∧
      (deal_after_insert d).changes = [] ∧
      (deal_after_insert d).snapshot = snapshotOf (dealFieldVals d)) := by
  refine ⟨?_, fun e => ⟨rfl, rfl, rfl⟩, ?_, fun d => ⟨rfl, rfl, rfl⟩⟩
  · intro old new
    have hk : (escrowFieldVals old).map Prod.fst = (escrowFieldVals new).map Prod.fst := rfl
    have hnd : ((escrowFieldVals old).map Prod.fst).Nodup := by
      rw [show (escrowFieldVals old).map Prod.fst =
        ["id", "deal_group_id", "amount", "currency", "status", "payer_id",
         "payee_id", "released_by_id", "idempotency_key", "released_at",
         "created_at"] from rfl]
      decide
    unfold EscrowUpdateAuditProp
    by_cases hemp : (changesOf (escrowFieldVals old) (escrowFieldVals new)).isEmpty
    · have hnone : escrow_after_update old new = none := by
        unfold escrow_after_update
        rw [if_pos hemp]
      rw [hnone]
      show escrowFieldVals old = escrowFieldVals new
      exact (changesOf_eq_nil_iff _ _ hk).mp (by rwa [List.isEmpty_iff] at hemp)
    · have hsome : escrow_after_update old new = some
          { action := "UPDATE", table_name := "escrow_transactions",
            record_id := toString new.id,
            changes := changesOf (escrowFieldVals old) (escrowFieldVals new),
            snapshot := snapshotOf (escrowFieldVals new) } := by
        unfold escrow_after_update
        rw [if_neg hemp]
      rw [hsome]
      refine ⟨?_, rfl, rfl, rfl, rfl, map_fst_changesOf _ _, ?_⟩
      · intro hfe
        apply hemp
        rw [(changesOf_eq_nil_iff _ _ hk).mpr hfe]
        rfl
      · intro k2
        rw [map_fst_changesOf]
        exact mem_changedKeys_iff _ _ hk hnd k2
  · intro old new
    have hk : (dealFieldVals old).map Prod.fst = (dealFieldVals new).map Prod.fst := rfl
    have hnd : ((dealFieldVals old).map Prod.fst).Nodup := by
      rw [show (dealFieldVals old).map Prod.fst =
        ["id", "deal_number", "title", "status", "seller_id", "buyer_id",
         "driver_id", "agreed_price_per_kg", "agreed_quantity_kg",
         "created_at", "updated_at"] from rfl]
      decide
    unfold DealUpdateAuditProp
    by_cases hemp : (changesOf (dealFieldVals old) (dealFieldVals new)).isEmpty
    · have hnone : deal_after_update old new = none := by
        unfold deal_after_update
        rw [if_pos hemp]
      rw [hnone]
      show dealFieldVals old = dealFieldVals new
      exact (changesOf_eq_nil_iff _ _ hk).mp (by rwa [List.isEmpty_iff] at hemp)
    · have hsome : deal_after_update old new = some
          { action := "UPDATE", table_name := "deal_groups",
            record_id := toString new.id,
            changes := changesOf (dealFieldVals old) (dealFieldVals new),
            snapshot := snapshotOf (dealFieldVals new) } := by
        unfold deal_after_update
        rw [if_neg hemp]
      rw [hsome]
      refine ⟨?_, rfl, rfl, rfl, rfl, map_fst_changesOf _ _, ?_⟩
      · intro hfe
        apply hemp
        rw [(changesOf_eq_nil_iff _ _ hk).mpr hfe]
        rfl
      · intro k2
        rw [map_fst_changesOf]
        exact mem_changedKeys_iff _ _ hk hnd k2

/-- C5 counterexample: an update that changes no persisted field produces no
audit entry at all — the listener returns early instead of recording the
event with zero changed fields as the claim states. -/
theorem zero_change_update_unrecorded :
    escrow_after_update exEscrow exEscrow = none := by decide

/-- C7 counterexample: binary floating point is used on the monetary
boundary. The audit serializer maps a `Decimal` amount to `float(value)`
(the `Json.float` constructor marks a binary float), and the release
response carries the escrow amount as a `float` field (`PyFloat` marks the
`float(...)` conversion applied in the router). -/
theorem monetary_serialized_as_float :
    Json.isFloatVal (serialize_value (PyVal.dec (4380 : ℚ))) = true ∧
    respAmountOf (release_escrow exCheck 100 exDb exReqA).1 = some (PyFloat.mk 4380) :=
  ⟨rfl, by decide⟩

/-- C7 (amended): monetary values are stored and computed as exact decimals,
and only converted at the serialization boundary: the audit serializer maps
identifiers to strings, timestamps to ISO strings, enums to their symbolic
value, nulls to null — but Decimal values to binary float; and the release
response carries its amount and both split amounts as the float images of
the exact decimal values. -/
theorem serialization_boundary :
    (∀ q : ℚ, serialize_value (.dec q) = .float q) ∧
    (∀ n : Nat, serialize_value (.uuid n) = .str (toString n)) ∧
    (∀ tt : Nat, serialize_value (.dt tt) = .str (isoFormat tt)) ∧
    (∀ s : String, serialize_value (.enumv s) = .str s) ∧
    serialize_value .pynone = .null ∧
    (∀ (deal : DealGroup) (e : EscrowTransaction) (producer driver : User)
        (key : Option String) (tt : Nat),
      (settleResponse deal e producer driver key tt).amount = PyFloat.mk e.amount ∧
      (settleResponse deal e producer driver key tt).producer_credit.amount =
        PyFloat.mk (e.amount * PRODUCER_SHARE) ∧
      (settleResponse deal e producer driver key tt).driver_credit.amount =
        PyFloat.mk (e.amount * DRIVER_SHARE)) :=
  ⟨fun _ => rfl, fun _ => rfl, fun _ => rfl, fun _ => rfl, rfl,
    fun _ _ _ _ _ _ => ⟨rfl, rfl, rfl⟩⟩

/-- C8 counterexample: the status enum of the source has a fifth member
`RELEASED = "released"` that is not in the four-member set
{HELD, FUNDS_RELEASED, REFUNDED, DISPUTED} the claim asserts. -/
theorem escrow_status_enum_extra :
    specStatusSet EscrowStatus.released = false := rfl

/-- C8 (amended): the status enum has the five members HELD, RELEASED,
FUNDS_RELEASED, REFUNDED, DISPUTED; across any release call (with distinct
escrow primary keys) each escrow row is either left completely unchanged or
makes the single settlement transition HELD → FUNDS_RELEASED, and rows are
neither created nor dropped — in particular a FUNDS_RELEASED row is never
mutated again. -/
theorem escrow_status_transition (checkpw : String → String → Bool) (t : Nat)
    (db : DB) (req : EscrowReleaseRequest)
    (hnd : (db.escrows.map EscrowTransaction.id).Nodup) (i : Nat) :
    statusStep (escrowById db i) (escrowById (finalDB checkpw t db req) i) := by
  unfold finalDB
  cases hrel : release_escrow checkpw t db req with
  | mk res ev =>
  cases res with
  | error e => exact statusStep_refl _
  | ok o =>
    rcases release_escrow_ok_inv hrel with ⟨k, ex, deal, hk, he, hst, hd, ho, hev⟩ | htxn
    · subst ho
      exact statusStep_refl _
    · rcases releaseTxn_ok_inv htxn with
        ⟨deal, escrow, payer, producer, driver, h1, h2, hheld, h4, h5, h6, ho, hev⟩
      subst ho
      show statusStep (escrowById db i)
        (escrowById (deliverShipment (creditUser (creditUser
          (setEscrow db (updatedEscrow escrow payer.id req.idempotency_key t))
          producer.id (escrow.amount * PRODUCER_SHARE))
          driver.id (escrow.amount * DRIVER_SHARE)) deal.id t) i)
      rw [escrowById_deliverShipment, escrowById_creditUser, escrowById_creditUser,
        escrowById_setEscrow]
      cases hx : escrowById db i with
      | none => exact statusStep_refl none
      | some x =>
        by_cases hxe : x.id = escrow.id
        · have hxm : x ∈ db.escrows := List.mem_of_find?_eq_some hx
          have hem : escrow ∈ db.escrows := List.mem_of_find?_eq_some h2
          have hxeq : x = escrow := List.inj_on_of_nodup_map hnd hxm hem hxe
          have hcb : (x.id == (updatedEscrow escrow payer.id req.idempotency_key t).id)
              = true := beq_iff_eq.mpr hxe
          show statusStep (some x) (some (if x.id ==
            (updatedEscrow escrow payer.id req.idempotency_key t).id then
              updatedEscrow escrow payer.id req.idempotency_key t else x))
          rw [if_pos hcb]
          exact Or.inr ⟨by rw [hxeq]; exact hheld, rfl⟩
        · have hcb : (x.id == (updatedEscrow escrow payer.id req.idempotency_key t).id)
              = false := beq_eq_false_iff_ne.mpr hxe
          show statusStep (some x) (some (if x.id ==
            (updatedEscrow escrow payer.id req.idempotency_key t).id then
              updatedEscrow escrow payer.id req.idempotency_key t else x))
          rw [if_neg (by simp [hcb])]
          exact statusStep_refl (some x)

/-- C9: under the data-model invariant that escrow amounts are non-negative,
any release call only adds non-negative credits: every stored balance after
the call is greater than or equal to its value before the call, and a
non-negative balance never becomes negative. -/
theorem credits_nonneg (checkpw : String → String → Bool) (t : Nat) (db : DB)
    (req : EscrowReleaseRequest) (uid : Nat)
    (hamt : ∀ e ∈ db.escrows, 0 ≤ e.amount) :
    balanceOf db uid ≤ balanceOf (finalDB checkpw t db req) uid ∧
    (0 ≤ balanceOf db uid → 0 ≤ balanceOf (finalDB checkpw t db req) uid) := by
  have main : balanceOf db uid ≤ balanceOf (finalDB checkpw t db req) uid := by
    unfold finalDB
    cases hrel : release_escrow checkpw t db req with
    | mk res ev =>
    cases res with
    | error e => exact le_refl _
    | ok o =>
      rcases release_escrow_ok_inv hrel with ⟨k, ex, deal, hk, he, hst, hd, ho, hev⟩ | htxn
      · subst ho
        exact le_refl _
      · rcases releaseTxn_ok_inv htxn with
          ⟨deal, escrow, payer, producer, driver, h1, h2, hheld, h4, h5, h6, ho, hev⟩
        subst ho
        have hnn : 0 ≤ escrow.amount := hamt escrow (List.mem_of_find?_eq_some h2)
        have hP : 0 ≤ escrow.amount * PRODUCER_SHARE :=
          mul_nonneg hnn (by norm_num [PRODUCER_SHARE])
        have hD : 0 ≤ escrow.amount * DRIVER_SHARE :=
          mul_nonneg hnn (by norm_num [DRIVER_SHARE])
        show balanceOf db uid ≤ balanceOf (deliverShipment (creditUser (creditUser
          (setEscrow db (updatedEscrow escrow payer.id req.idempotency_key t))
          producer.id (escrow.amount * PRODUCER_SHARE))
          driver.id (escrow.amount * DRIVER_SHARE)) deal.id t) uid
        rw [balanceOf_deliverShipment]
        calc balanceOf db uid
            = balanceOf (setEscrow db
                (updatedEscrow escrow payer.id req.idempotency_key t)) uid :=
              (balanceOf_setEscrow _ _ _).symm
          _ ≤ balanceOf (creditUser (setEscrow db
                (updatedEscrow escrow payer.id req.idempotency_key t))
                producer.id (escrow.amount * PRODUCER_SHARE)) uid :=
              balanceOf_creditUser_ge _ _ _ _ hP
          _ ≤ balanceOf (creditUser (creditUser (setEscrow db
                (updatedEscrow escrow payer.id req.idempotency_key t))
                producer.id (escrow.amount * PRODUCER_SHARE))
                driver.id (escrow.amount * DRIVER_SHARE)) uid :=
              balanceOf_creditUser_ge _ _ _ _ hD
  exact ⟨main, fun h0 => le_trans h0 main⟩

/-- C10: when the payer of the requested deal is distinct from the seller
(producer) and the driver, the account row of the payer — in particular its
stored balance — is exactly the same after the call as before it: the payer
row is read for PIN authorization only, and the only rows written are the
rows of the producer and of the driver. -/
theorem payer_balance_frame (checkpw : String → String → Bool) (t : Nat)
    (db : DB) (req : EscrowReleaseRequest) (pid : Nat)
    (hp : payerIdOf db req = some pid)
    (hs : sellerIdOf db req ≠ some pid)
    (hdr : driverIdOf db req ≠ some pid) :
    userById (finalDB checkpw t db req) pid = userById db pid := by
  unfold finalDB
  cases hrel : release_escrow checkpw t db req with
  | mk res ev =>
  cases res with
  | error e => rfl
  | ok o =>
    rcases release_escrow_ok_inv hrel with ⟨k, ex, deal, hk, he, hst, hd, ho, hev⟩ | htxn
    · subst ho
      rfl
    · rcases releaseTxn_ok_inv htxn with
        ⟨deal, escrow, payer, producer, driver, h1, h2, hheld, h4, h5, h6, ho, hev⟩
      subst ho
      rcases hsid : deal.seller_id with _ | sid
      · rw [hsid] at h5
        exact absurd h5 (by simp)
      rcases hdid : deal.driver_id with _ | did
      · rw [hdid] at h6
        exact absurd h6 (by simp)
      rw [hsid] at h5
      rw [hdid] at h6
      have h5' : findUser (setEscrow db
          (updatedEscrow escrow payer.id req.idempotency_key t)) sid = some producer := h5
      have h6' : findUser (creditUser (setEscrow db
          (updatedEscrow escrow payer.id req.idempotency_key t))
          producer.id (escrow.amount * PRODUCER_SHARE)) did = some driver := h6
      have hprodid : producer.id = sid := by simpa using List.find?_some h5'
      have hdrvid : driver.id = did := by simpa using List.find?_some h6'
      have hsv : sellerIdOf db req = some sid := by
        unfold sellerIdOf
        rw [h1]
        exact hsid
      have hdv : driverIdOf db req = some did := by
        unfold driverIdOf
        rw [h1]
        exact hdid
      have hs2 : pid ≠ sid := fun hh => hs (by rw [hsv, hh])
      have hd2 : pid ≠ did := fun hh => hdr (by rw [hdv, hh])
      show userById (deliverShipment (creditUser (creditUser
        (setEscrow db (updatedEscrow escrow payer.id req.idempotency_key t))
        producer.id (escrow.amount * PRODUCER_SHARE))
        driver.id (escrow.amount * DRIVER_SHARE)) deal.id t) pid = userById db pid
      unfold userById
      rw [findUser_deliverShipment,
        findUser_creditUser_ne _ _ _ _ (by rw [hdrvid]; exact hd2),
        findUser_creditUser_ne _ _ _ _ (by rw [hprodid]; exact hs2),
        findUser_setEscrow]

/-! ## Witnesses: the claim theorems applied at concrete seeded states -/

/-- C2 witness: the three guards at concrete states — a reused key on a HELD
escrow, a locked escrow already FUNDS_RELEASED, and a DISPUTED escrow. -/
theorem release_status_guards_witness :
    (exReqA.idempotency_key = some "key-1" ∧
      findEscrowByKey dbKeyHeld "key-1" = some escrowKeyHeld ∧
      escrowKeyHeld.status ≠ .funds_released ∧
      failsClean exCheck 100 dbKeyHeld exReqA 409) ∧
    (precheckPasses dbReleased exReqNoKey = true ∧
      findDeal dbReleased 1 = some exDeal ∧
      findEscrowByDeal dbReleased exDeal.id = some escrowReleased ∧
      escrowReleased.status = .funds_released ∧
      failsClean exCheck 100 dbReleased exReqNoKey 409) ∧
    (precheckPasses dbDisputed exReqNoKey = true ∧
      findDeal dbDisputed 1 = some exDeal ∧
      findEscrowByDeal dbDisputed exDeal.id = some escrowDisputed ∧
      escrowDisputed.status ≠ .funds_released ∧ escrowDisputed.status ≠ .held ∧
      failsClean exCheck 100 dbDisputed exReqNoKey 400) := by
  refine ⟨⟨rfl, by decide, by decide, ?_⟩,
    ⟨by decide, by decide, by decide, by decide, ?_⟩,
    ⟨by decide, by decide, by decide, by decide, by decide, ?_⟩⟩
  · exact (release_status_guards exCheck 100 dbKeyHeld exReqA).1
      "key-1" escrowKeyHeld rfl (by decide) (by decide)
  · exact (release_status_guards exCheck 100 dbReleased exReqNoKey).2.1
      exDeal escrowReleased (by decide) (by decide) (by decide) (by decide)
  · exact (release_status_guards exCheck 100 dbDisputed exReqNoKey).2.2
      exDeal escrowDisputed (by decide) (by decide) (by decide) (by decide) (by decide)

/-- C3 witness: every enumerated failure mode exercised on a concrete state,
each leaving the business state untouched; the seven pre-flush failures
schedule no audit task, while the producer-missing and driver-missing
failures schedule exactly the escrow-update audit task. -/
theorem release_failures_atomic_witness :
    (precheckPasses exDb exReqNoDeal = true ∧ failsClean exCheck 100 exDb exReqNoDeal 404) ∧
    (precheckPasses dbNoEscrow exReqNoKey = true ∧
      failsClean exCheck 100 dbNoEscrow exReqNoKey 404) ∧
    (precheckPasses dbReleased exReqNoKey = true ∧
      failsClean exCheck 100 dbReleased exReqNoKey 409) ∧
    (precheckPasses dbDisputed exReqNoKey = true ∧
      failsClean exCheck 100 dbDisputed exReqNoKey 400) ∧
    (precheckPasses dbNoPayer exReqNoKey = true ∧
      failsClean exCheck 100 dbNoPayer exReqNoKey 404) ∧
    (precheckPasses dbNoPin exReqNoKey = true ∧
      failsClean exCheck 100 dbNoPin exReqNoKey 403) ∧
    (precheckPasses exDb exReqBadPin = true ∧
      failsClean exCheck 100 exDb exReqBadPin 403) ∧
    (precheckPasses dbNoSeller exReqNoKey = true ∧
      failsRolledBack exCheck 100 dbNoSeller exReqNoKey 404 ∧
      auditOf (release_escrow exCheck 100 dbNoSeller exReqNoKey) =
        (escrow_after_update exEscrow
          (updatedEscrow exEscrow exPayer.id exReqNoKey.idempotency_key 100)).toList) ∧
    (precheckPasses dbNoDriver exReqNoKey = true ∧
      failsRolledBack exCheck 100 dbNoDriver exReqNoKey 404 ∧
      auditOf (release_escrow exCheck 100 dbNoDriver exReqNoKey) =
        (escrow_after_update exEscrow
          (updatedEscrow exEscrow exPayer.id exReqNoKey.idempotency_key 100)).toList) := by
  refine ⟨⟨by decide, ?_⟩, ⟨by decide, ?_⟩, ⟨by decide, ?_⟩, ⟨by decide, ?_⟩,
    ⟨by decide, ?_⟩, ⟨by decide, ?_⟩, ⟨by decide, ?_⟩, ⟨by decide, ?_⟩, ⟨by decide, ?_⟩⟩
  · exact (release_failures_atomic exCheck 100 exDb exReqNoDeal (by decide)).1 (by decide)
  · exact (release_failures_atomic exCheck 100 dbNoEscrow exReqNoKey (by decide)).2.1
      exDeal (by decide) (by decide)
  · exact (release_failures_atomic exCheck 100 dbReleased exReqNoKey (by decide)).2.2.1
      exDeal escrowReleased (by decide) (by decide) (by decide)
  · exact (release_failures_atomic exCheck 100 dbDisputed exReqNoKey (by decide)).2.2.2.1
      exDeal escrowDisputed (by decide) (by decide) (by decide) (by decide)
  · exact (release_failures_atomic exCheck 100 dbNoPayer exReqNoKey (by decide)).2.2.2.2.1
      exDeal escrowNoPayer (by decide) (by decide) (by decide) (by decide)
  · exact (release_failures_atomic exCheck 100 dbNoPin exReqNoKey (by decide)).2.2.2.2.2.1
      exDeal exEscrow payerNoPin (by decide) (by decide) (by decide) (by decide) (by decide)
  · exact (release_failures_atomic exCheck 100 exDb exReqBadPin (by decide)).2.2.2.2.2.2.1
      exDeal exEscrow exPayer (by decide) (by decide) (by decide) (by decide) (by decide)
      (by decide)
  · exact (release_failures_atomic exCheck 100 dbNoSeller exReqNoKey (by decide)).2.2.2.2.2.2.2.1
      dealNoSeller exEscrow exPayer (by decide) (by decide) (by decide) (by decide) (by decide)
      (by decide) (by decide)
  · exact (release_failures_atomic exCheck 100 dbNoDriver exReqNoKey (by decide)).2.2.2.2.2.2.2.2
      dealNoDriver exEscrow exPayer exProducer (by decide) (by decide) (by decide) (by decide)
      (by decide) (by decide) (by decide) (by decide)

/-- C4 witness: the replay theorem applied to the state produced by the
Scenario A settlement, with the recorded key, escrow row and deal. -/
theorem replay_returns_cached_witness :
    exReqA.idempotency_key = some "key-1" ∧
    findEscrowByKey exDb2 "key-1" = some exEscrow2 ∧
    exEscrow2.status = .funds_released ∧
    findDeal exDb2 exEscrow2.deal_group_id = some exDeal ∧
    release_escrow exCheck 200 exDb2 exReqA =
      (.ok { db := exDb2, resp := replayResponse exDeal exEscrow2 "key-1" 200 }, []) := by
  refine ⟨rfl, by decide, by decide, by decide, ?_⟩
  exact (replay_returns_cached exCheck 200 exDb2 exReqA "key-1" exEscrow2 exDeal
    rfl (by decide) (by decide) (by decide)).1

/-- C5 witness: the listener guarantee at the concrete settlement update of
the seeded escrow row. -/
theorem audit_diff_exact_witness : EscrowUpdateAuditProp exEscrow exEscrow2 :=
  audit_diff_exact.1 exEscrow exEscrow2

/-- C8 witness: the transition property at the seeded state (distinct
primary keys), observed on the settled escrow row. -/
theorem escrow_status_transition_witness :
    (exDb.escrows.map EscrowTransaction.id).Nodup ∧
    statusStep (escrowById exDb 2) (escrowById (finalDB exCheck 100 exDb exReqA) 2) :=
  ⟨by decide, escrow_status_transition exCheck 100 exDb exReqA (by decide) 2⟩

/-- C9 witness: the seeded state has a non-negative escrow amount and the
producer balance does not decrease across the Scenario A settlement. -/
theorem credits_nonneg_witness :
    (∀ e ∈ exDb.escrows, 0 ≤ e.amount) ∧
    balanceOf exDb 20 ≤ balanceOf (finalDB exCheck 100 exDb exReqA) 20 :=
  ⟨by decide, (credits_nonneg exCheck 100 exDb exReqA 20 (by decide)).1⟩

/-- C10 witness: in the seeded state the payer (account 10) is distinct from
seller and driver, and the settlement leaves the payer row unchanged. -/
theorem payer_balance_frame_witness :
    payerIdOf exDb exReqA = some 10 ∧
    sellerIdOf exDb exReqA ≠ some 10 ∧
    driverIdOf exDb exReqA ≠ some 10 ∧
    userById (finalDB exCheck 100 exDb exReqA) 10 = userById exDb 10 :=
  ⟨by decide, by decide, by decide,
    payer_balance_frame exCheck 100 exDb exReqA 10 (by decide) (by decide) (by decide)⟩

end Daladan
